import Mathlib

/-!
Verification of the invoice-management workflow (src/main.py): data model,
the invoice lifecycle orchestrator (create → render → persist-artifact →
notify), the dashboard listing with its one-shot flash message, and the
artifact download path. The embedding follows the source line by line;
external collaborators (the Jinja template engine and the xhtml2pdf
conversion engine) are modelled as concrete functions, and the points
where the source can raise (template render, output-file open, PDF
conversion) are injected through an outcome parameter.
-/

namespace InvoiceApp

/-- The closed status enumeration of src/main.py: column default "Draft",
creation sets "Processing", terminal states "Sent" and "Error". -/
inductive Status where
  | Draft
  | Processing
  | Sent
  | Error
deriving DecidableEq, Repr

/-- The Invoice ORM model (src/main.py lines 37-47).  `amount` is a float
column on which the source performs no arithmetic, only storage and
display; we embed it as a rational.  `filename` is a nullable string
column, embedded as an option.  `created_at` is an abstract timestamp. -/
structure Invoice where
  id : Nat
  client_name : String
  client_email : String
  description : String
  amount : Rat
  created_at : Nat
  filename : Option String
  status : Status
deriving DecidableEq, Repr

/-- The persistent and session state the routes touch: the invoices table
(in insertion order, as SQLite stores the rows), the next primary key the
database will assign, the DATA_DIR files (name to bytes, most recent
write first so that lookup sees overwrites), and the session flash
message. -/
structure AppState where
  db : List Invoice
  nextId : Nat
  store : List (String × List Char)
  flash : Option String
deriving Repr

/-- The PDF magic header bytes, "%PDF". -/
def pdfMagic : List Char := ['%', 'P', 'D', 'F']

/-- Modelled from the spec: the Jinja template invoice.html lives outside
the core source; per §4.2 it is a deterministic markup rendering of the
invoice field values, which we embed as a concrete encoding of those
fields. -/
def renderTemplate (inv : Invoice) : String :=
  "<invoice>" ++ inv.client_name ++ "|" ++ inv.client_email ++ "|" ++
    inv.description ++ "|" ++ toString inv.amount.num ++ "/" ++
    toString inv.amount.den ++ "|" ++ toString inv.id ++ "</invoice>"

/-- Modelled from the spec: pisa.CreatePDF is the external
document-conversion engine (xhtml2pdf, not part of this repository); per
§4.2 and §8 a successful conversion yields a PDF byte stream beginning
with the magic header "%PDF". -/
def pisaConvert (html : String) : List Char := pdfMagic ++ html.data

/-- The unique artifact filename generated at line 77:
f-string of uuid.uuid4() followed by ".pdf".  The uuid draw is the
argument; the name depends on nothing else. -/
def pdf_filename (u : String) : String := u ++ ".pdf"

/-- The points at which the generate_pdf body (lines 71-92) can fail, as
an injected outcome: the Jinja render at line 82 raising, the
open(file_path, "wb") at line 85 raising before a file exists, the
conversion at line 86 setting pisa_status.err after the file was created
(carrying whatever bytes pisa wrote into it), or full success. -/
inductive RenderOutcome where
  | templateError
  | openError
  | conversionError (strayBytes : List Char)
  | ok
deriving DecidableEq, Repr

/-- generate_pdf (lines 71-92): generates the unique filename, renders
the template, opens the output file and lets pisa write into it, then
checks pisa_status.err and raises after the fact.  Returns the updated
DATA_DIR contents and `some filename` on success, `none` when the body
raised.  Note the file write precedes the error check: a conversion
error leaves the opened file in the store. -/
def generate_pdf (store : List (String × List Char)) (invoice_data : Invoice)
    (u : String) (out : RenderOutcome) :
    List (String × List Char) × Option String :=
  let name := pdf_filename u
  match out with
  | .templateError => (store, none)
  | .openError => (store, none)
  | .conversionError p => ((name, p) :: store, none)
  | .ok => ((name, pisaConvert (renderTemplate invoice_data)) :: store,
            some name)

/-- send_email_simulation (lines 94-103): pure log emission, mirroring
the five logger.info lines; it touches no persistent state and cannot
fail.  A None filename prints as "None", as the Python f-string does. -/
def send_email_simulation (invoice : Invoice) : List String :=
  ["--- EMAIL SIMULATION ---",
   "To: " ++ invoice.client_email,
   "Subject: Invoice #" ++ toString invoice.id ++ " from My Company Inc.",
   "Body: Hello " ++ invoice.client_name ++
     ", please find your invoice attached.",
   "Attachment: " ++ (match invoice.filename with
                      | some f => f
                      | none => "None"),
   "--- END EMAIL SIMULATION ---"]

/-- The ORM row update: SQLAlchemy mutates the row whose primary key
matches, which over the list of rows is a map guarded on the id. -/
def updateById (db : List Invoice) (i : Nat) (f : Invoice → Invoice) :
    List Invoice :=
  db.map fun inv => if inv.id = i then f inv else inv

/-- The record created and committed at lines 131-141: status
"Processing", filename NULL, id assigned by the database. -/
def mkNewInvoice (st : AppState) (client_name client_email description :
    String) (amount : Rat) (now : Nat) : Invoice :=
  { id := st.nextId, client_name := client_name,
    client_email := client_email, description := description,
    amount := amount, created_at := now, filename := none,
    status := .Processing }

/-- The redirect-equivalent completion signal of line 167. -/
structure Redirect where
  url : String
  status_code : Nat
deriving DecidableEq, Repr

/-- What a create request leaves behind: the new state, the response
(always the 303 redirect of line 167), and the log lines emitted. -/
structure CreateResult where
  state : AppState
  response : Redirect
  logs : List String
deriving Repr

/-- create_invoice (lines 120-167).  Commits the Processing record, then
inside the try block calls generate_pdf; on success updates the row with
the filename and status Sent, commits, runs the email simulation and
sets the success flash; on any exception updates the row to status Error
(filename untouched), commits, and sets the error flash.  Either way the
response is the 303 redirect to "/".  The uuid draw and the clock value
are oracle inputs, and the fallible steps are injected via `out`. -/
def create_invoice (st : AppState)
    (client_name client_email description : String) (amount : Rat)
    (now : Nat) (u : String) (out : RenderOutcome) : CreateResult :=
  let newInv := mkNewInvoice st client_name client_email description
    amount now
  let db1 := st.db ++ [newInv]
  match generate_pdf st.store newInv u out with
  | (store2, some name) =>
      let db2 := updateById db1 newInv.id fun i =>
        { i with filename := some name, status := .Sent }
      let sent := { newInv with filename := some name, status := .Sent }
      { state := { db := db2, nextId := st.nextId + 1, store := store2,
                   flash := some ("Invoice successfully created and sent to "
                     ++ client_email) },
        response := { url := "/", status_code := 303 },
        logs := send_email_simulation sent }
  | (store2, none) =>
      let db2 := updateById db1 newInv.id fun i =>
        { i with status := .Error }
      { state := { db := db2, nextId := st.nextId + 1, store := store2,
                   flash := some "Error generating invoice. Please check logs." },
        response := { url := "/", status_code := 303 },
        logs := ["Error processing invoice"] }

/-- What the SQL query at line 110 determines about its result:
`db.query(Invoice).order_by(Invoice.created_at.desc()).all()` returns
the rows of the table in some order that is non-increasing in
created_at.  SQL leaves the relative order of rows with equal sort keys
unspecified (there is no secondary sort key in the source), so the
result is characterised relationally: a permutation of the table,
pairwise sorted descending by created_at. -/
def listRecentSpec (db outRows : List Invoice) : Prop :=
  db.Perm outRows ∧
    List.Pairwise (fun a b => b.created_at ≤ a.created_at) outRows

/-- The template context the dashboard returns (lines 115-118). -/
structure DashboardView where
  invoices : List Invoice
  flash_message : Option String
deriving Repr

/-- dashboard (lines 107-118): runs the ordered query (its result, any
list admitted by `listRecentSpec`, enters as `queryResult`), pops the
flash message from the session, and renders both.  The pop both returns
the pending message and clears it. -/
def dashboard (st : AppState) (queryResult : List Invoice) :
    AppState × DashboardView :=
  ({ st with flash := none },
   { invoices := queryResult, flash_message := st.flash })

/-- The two distinct 404 raises of download_invoice: line 173 with
detail "Invoice not found" and line 177 with detail "PDF file missing". -/
inductive DownloadError where
  | invoiceNotFound
  | pdfFileMissing
deriving DecidableEq, Repr

/-- Both HTTPExceptions carry status_code=404. -/
def DownloadError.status_code : DownloadError → Nat
  | .invoiceNotFound => 404
  | .pdfFileMissing => 404

/-- The detail strings of the two raises. -/
def DownloadError.detail : DownloadError → String
  | .invoiceNotFound => "Invoice not found"
  | .pdfFileMissing => "PDF file missing"

/-- The FileResponse of lines 179-183. -/
structure FileResp where
  content : List Char
  media_type : String
  filename : String
deriving DecidableEq, Repr

/-- download_invoice (lines 169-183): first matching row by id
(query ... .first()); `if not invoice or not invoice.filename` treats a
missing row, a NULL filename and an empty-string filename alike as 404
"Invoice not found"; a missing file under DATA_DIR is 404 "PDF file
missing"; otherwise the stored bytes are served as application/pdf under
the derived name Invoice_<id>.pdf. -/
def download_invoice (st : AppState) (invoice_id : Nat) :
    Except DownloadError FileResp :=
  match st.db.find? (fun inv => inv.id == invoice_id) with
  | none => .error .invoiceNotFound
  | some invoice =>
    match invoice.filename with
    | none => .error .invoiceNotFound
    | some f =>
      if f.isEmpty then .error .invoiceNotFound
      else
        match st.store.lookup f with
        | none => .error .pdfFileMissing
        | some bytes =>
            .ok { content := bytes, media_type := "application/pdf",
                  filename := "Invoice_" ++ toString invoice_id ++ ".pdf" }

/-- health_check (lines 185-187). -/
def health_check : String × String := ("status", "ok")

/-- A database is well formed when every stored id is below the next id
the database will assign; every state reachable from the empty database
through create_invoice satisfies this. -/
def wfIds (st : AppState) : Prop := ∀ inv ∈ st.db, inv.id < st.nextId

/-- A row carries an artifact reference when its filename column is a
non-empty string (Python truthiness of the column). -/
def hasArtifact (inv : Invoice) : Bool :=
  match inv.filename with
  | some s => !s.isEmpty
  | none => false

/-- The spec §3 invariant over a table: artifact reference set iff
status Sent. -/
def artifactInvariant (db : List Invoice) : Prop :=
  ∀ inv ∈ db, (hasArtifact inv = true ↔ inv.status = Status.Sent)

/-- The row a completed creation leaves in the table: on success the
Processing record patched with the filename and status Sent, on any
failure the Processing record patched to status Error. -/
def finalRecord (st : AppState) (client_name client_email description :
    String) (amount : Rat) (now : Nat) (u : String)
    (out : RenderOutcome) : Invoice :=
  let newInv := mkNewInvoice st client_name client_email description
    amount now
  match out with
  | .ok =>
      { newInv with
        filename := some (pdf_filename u)
        status := .Sent }
  | .templateError => { newInv with status := .Error }
  | .openError => { newInv with status := .Error }
  | .conversionError _ => { newInv with status := .Error }

/-! ### Helper lemmas -/

theorem updateById_eq_self (l : List Invoice) (i : Nat)
    (f : Invoice → Invoice) (h : ∀ inv ∈ l, inv.id ≠ i) :
    updateById l i f = l := by
  induction l with
  | nil => rfl
  | cons x xs ih =>
    have hx : x.id ≠ i := h x (List.mem_cons_self _ _)
    have hxs : ∀ inv ∈ xs, inv.id ≠ i :=
      fun inv hm => h inv (List.mem_cons_of_mem _ hm)
    have ihx := ih hxs
    simp only [updateById, List.map_cons, if_neg hx] at *
    rw [ihx]

theorem updateById_append_singleton (l : List Invoice) (x : Invoice)
    (f : Invoice → Invoice) :
    updateById (l ++ [x]) x.id f = updateById l x.id f ++ [f x] := by
  simp [updateById, List.map_append]

theorem getLast?_updateById_concat (l : List Invoice) (x : Invoice)
    (f : Invoice → Invoice) :
    (updateById (l ++ [x]) x.id f).getLast? = some (f x) := by
  rw [updateById_append_singleton, List.getLast?_concat]

theorem pdf_filename_not_isEmpty (u : String) :
    (pdf_filename u).isEmpty = false := by
  by_contra h
  rw [Bool.not_eq_false, String.isEmpty_iff] at h
  have := congrArg String.data h
  simp [pdf_filename, String.data_append] at this

theorem pdf_filename_inj (u1 u2 : String)
    (h : pdf_filename u1 = pdf_filename u2) : u1 = u2 := by
  have hd := congrArg String.data h
  simp only [pdf_filename, String.data_append] at hd
  exact String.ext (List.append_cancel_right hd)

theorem create_invoice_db_eq_of_wf (st : AppState)
    (client_name client_email description : String) (amount : Rat)
    (now : Nat) (u : String) (out : RenderOutcome) (hwf : wfIds st) :
    (create_invoice st client_name client_email description amount now u
        out).state.db =
      st.db ++ [finalRecord st client_name client_email description
        amount now u out] := by
  have hid : ∀ inv ∈ st.db,
      inv.id ≠ (mkNewInvoice st client_name client_email description
        amount now).id :=
    fun inv hm => Nat.ne_of_lt (hwf inv hm)
  cases out <;>
    simp only [create_invoice, generate_pdf, finalRecord,
      updateById_append_singleton, updateById_eq_self _ _ _ hid]

theorem create_invoice_getLast? (st : AppState)
    (client_name client_email description : String) (amount : Rat)
    (now : Nat) (u : String) (out : RenderOutcome) :
    (create_invoice st client_name client_email description amount now u
        out).state.db.getLast? =
      some (finalRecord st client_name client_email description amount
        now u out) := by
  cases out <;>
    simp only [create_invoice, generate_pdf, finalRecord,
      getLast?_updateById_concat]

/-! ### Concrete fixtures used by counterexamples and witnesses -/

/-- The empty application state: fresh database, empty DATA_DIR, no
pending flash message. -/
def stEmpty : AppState := { db := [], nextId := 1, store := [], flash := none }

/-- A concrete invoice row. -/
def invA : Invoice :=
  { id := 1, client_name := "Alice", client_email := "alice@example.com",
    description := "consulting", amount := 10, created_at := 5,
    filename := none, status := .Processing }

/-- A second concrete invoice row, inserted after `invA`, with the same
creation timestamp. -/
def invB : Invoice :=
  { id := 2, client_name := "Bob", client_email := "bob@example.com",
    description := "design", amount := 20, created_at := 5,
    filename := none, status := .Processing }

/-- A Sent invoice whose artifact reference points at a file name that
is absent from the store (deleted out of band). -/
def invSentMissing : Invoice :=
  { id := 1, client_name := "Alice", client_email := "alice@example.com",
    description := "consulting", amount := 10, created_at := 5,
    filename := some "g.pdf", status := .Sent }

/-- A state holding only `invSentMissing`, with an empty store. -/
def stMissingFile : AppState :=
  { db := [invSentMissing], nextId := 2, store := [], flash := none }

/-- A state holding only `invA`. -/
def stOne : AppState :=
  { db := [invA], nextId := 2, store := [], flash := none }

/-! ### Claim theorems -/

/-- Claim C1, counterexample: a creation whose PDF conversion fails
(pisa_status.err set at line 88) does leave the persisted record in
status Error with the filename unset, but the artifact store is NOT
left without a file for the generated handle: the output file is
opened and written at lines 85-86, before the error check, and is never
removed, so after the failure the store still resolves the handle to
the partial bytes. -/
theorem conversion_failure_leaves_visible_file :
    (((create_invoice stEmpty "Acme" "acme@example.com" "Consulting" 0 0
        "u0" (.conversionError ['x'])).state.db.getLast?).map
        Invoice.status = some Status.Error ∧
     ((create_invoice stEmpty "Acme" "acme@example.com" "Consulting" 0 0
        "u0" (.conversionError ['x'])).state.db.getLast?).map
        Invoice.filename = some none) ∧
    (create_invoice stEmpty "Acme" "acme@example.com" "Consulting" 0 0
        "u0" (.conversionError ['x'])).state.store.lookup
        (pdf_filename "u0") = some ['x'] :=
  ⟨⟨rfl, rfl⟩, rfl⟩

/-- Claim C1, amended: for every failed creation the persisted record
ends in status Error with its filename unset; a failure in the template
render or in opening the output file writes nothing to the artifact
store, but a failure of the PDF conversion itself leaves the opened
output file visible in the store with whatever partial bytes the
converter wrote, because the write at lines 85-86 precedes the
pisa_status.err check at line 88 and no cleanup removes the file. -/
theorem failed_creation_final_state (st : AppState)
    (n e d : String) (a : Rat) (t : Nat) (u : String) (p : List Char) :
    (((create_invoice st n e d a t u .templateError).state.db.getLast?).map
        Invoice.status = some Status.Error ∧
     ((create_invoice st n e d a t u .templateError).state.db.getLast?).map
        Invoice.filename = some none ∧
     (create_invoice st n e d a t u .templateError).state.store =
        st.store) ∧
    (((create_invoice st n e d a t u .openError).state.db.getLast?).map
        Invoice.status = some Status.Error ∧
     ((create_invoice st n e d a t u .openError).state.db.getLast?).map
        Invoice.filename = some none ∧
     (create_invoice st n e d a t u .openError).state.store = st.store) ∧
    (((create_invoice st n e d a t u
        (.conversionError p)).state.db.getLast?).map
        Invoice.status = some Status.Error ∧
     ((create_invoice st n e d a t u
        (.conversionError p)).state.db.getLast?).map
        Invoice.filename = some none ∧
     (create_invoice st n e d a t u (.conversionError p)).state.store =
        (pdf_filename u, p) :: st.store) := by
  refine ⟨⟨?_, ?_, rfl⟩, ⟨?_, ?_, rfl⟩, ⟨?_, ?_, rfl⟩⟩ <;>
    rw [create_invoice_getLast?] <;>
    simp [finalRecord, mkNewInvoice]

/-- Claim C5: the dashboard pops the flash message from the session
(line 113): the delivered message is exactly the pending one, the
resulting session holds none, and a second dashboard call with no
intervening set delivers no message. -/
theorem flash_message_consumed_on_read (st : AppState)
    (q1 q2 : List Invoice) :
    (dashboard st q1).2.flash_message = st.flash ∧
    (dashboard st q1).1.flash = none ∧
    (dashboard ((dashboard st q1).1) q2).2.flash_message = none :=
  ⟨rfl, rfl, rfl⟩

/-- Claim C6: every create request, whatever the lifecycle outcome
(template failure, file-open failure, conversion failure, or success),
completes with the same 303 redirect to "/" (line 167); the broad
except at line 161 keeps every lifecycle failure inside the handler. -/
theorem create_always_redirects_303 (st : AppState) (n e d : String)
    (a : Rat) (t : Nat) (u : String) (out : RenderOutcome) :
    (create_invoice st n e d a t u out).response =
      { url := "/", status_code := 303 } := by
  cases out <;> rfl

/-- Claim C8: once the record is committed with status Sent and the
filename attached (lines 148-150), the notify step
(send_email_simulation, line 156) contributes only log lines: it is
unconditional logging with no failure mode, its return value is unused,
and the persisted state is exactly the committed update, with status
Sent and the artifact reference still set. -/
theorem notify_cannot_alter_sent_record (st : AppState) (n e d : String)
    (a : Rat) (t : Nat) (u : String) :
    (create_invoice st n e d a t u .ok).logs =
      send_email_simulation (finalRecord st n e d a t u .ok) ∧
    ((create_invoice st n e d a t u .ok).state.db.getLast?).map
      Invoice.status = some Status.Sent ∧
    ((create_invoice st n e d a t u .ok).state.db.getLast?).map
      Invoice.filename = some (some (pdf_filename u)) ∧
    (create_invoice st n e d a t u .ok).state.db =
      updateById (st.db ++ [mkNewInvoice st n e d a t])
        (mkNewInvoice st n e d a t).id
        (fun i =>
          { i with
            filename := some (pdf_filename u)
            status := Status.Sent }) := by
  refine ⟨rfl, ?_, ?_, rfl⟩ <;>
    rw [create_invoice_getLast?] <;> simp [finalRecord, mkNewInvoice]

/-- Claim C9: the artifact handle generated at line 77 is the uuid draw
followed by ".pdf": it is the same function of the draw for every
invoice and every store content (no invoice field enters it), and
distinct draws give distinct handles. -/
theorem artifact_handle_independent_of_invoice
    (store store₂ : List (String × List Char)) (inv inv₂ : Invoice)
    (u : String) :
    (generate_pdf store inv u .ok).2 = some (pdf_filename u) ∧
    (generate_pdf store inv u .ok).2 = (generate_pdf store₂ inv₂ u .ok).2 ∧
    (∀ u1 u2 : String, u1 ≠ u2 → pdf_filename u1 ≠ pdf_filename u2) :=
  ⟨rfl, rfl, fun u1 u2 hne h => hne (pdf_filename_inj u1 u2 h)⟩

/-- Witness for C9 at concrete inputs. -/
theorem artifact_handle_independent_of_invoice_witness :
    (generate_pdf [] invA "w1" .ok).2 = some (pdf_filename "w1") ∧
    pdf_filename "w1" ≠ pdf_filename "w2" :=
  ⟨(artifact_handle_independent_of_invoice [] [] invA invB "w1").1,
   (artifact_handle_independent_of_invoice [] [] invA invB "w1").2.2
     "w1" "w2" (by decide)⟩

/-- Claim C10: the create handler performs no validation on the amount:
whatever rational is submitted (negative and zero included) is persisted
exactly as given, and the lifecycle is otherwise identical to any other
submission with the same outcome: same final status, same artifact
reference, same response, same flash message, same table size. -/
theorem amount_stored_unvalidated (st : AppState) (n e d : String)
    (a a₂ : Rat) (t : Nat) (u : String) (out : RenderOutcome) :
    ((create_invoice st n e d a t u out).state.db.getLast?).map
      Invoice.amount = some a ∧
    ((create_invoice st n e d a t u out).state.db.getLast?).map
        Invoice.status =
      ((create_invoice st n e d a₂ t u out).state.db.getLast?).map
        Invoice.status ∧
    ((create_invoice st n e d a t u out).state.db.getLast?).map
        Invoice.filename =
      ((create_invoice st n e d a₂ t u out).state.db.getLast?).map
        Invoice.filename ∧
    (create_invoice st n e d a t u out).response =
      (create_invoice st n e d a₂ t u out).response ∧
    (create_invoice st n e d a t u out).state.flash =
      (create_invoice st n e d a₂ t u out).state.flash ∧
    (create_invoice st n e d a t u out).state.db.length =
      (create_invoice st n e d a₂ t u out).state.db.length := by
  refine ⟨?_, ?_, ?_, ?_, ?_, ?_⟩
  · rw [create_invoice_getLast?]
    cases out <;> simp [finalRecord, mkNewInvoice]
  · rw [create_invoice_getLast?, create_invoice_getLast?]
    cases out <;> simp [finalRecord, mkNewInvoice]
  · rw [create_invoice_getLast?, create_invoice_getLast?]
    cases out <;> simp [finalRecord, mkNewInvoice]
  · cases out <;> rfl
  · cases out <;> rfl
  · cases out <;>
      simp [create_invoice, generate_pdf, updateById]

/-- Claim C2: the artifact-reference-iff-Sent invariant holds for the
intermediate committed Processing record and is preserved by the whole
create operation (covering the Sent update at lines 148-150 and the
Error update at lines 163-164), on any well-formed state; the dashboard
does not alter the table.  Well-formedness of ids is itself preserved. -/
theorem create_preserves_artifact_invariant (st : AppState)
    (n e d : String) (a : Rat) (t : Nat) (u : String)
    (out : RenderOutcome) (hwf : wfIds st)
    (hinv : artifactInvariant st.db) :
    artifactInvariant (st.db ++ [mkNewInvoice st n e d a t]) ∧
    artifactInvariant (create_invoice st n e d a t u out).state.db ∧
    wfIds (create_invoice st n e d a t u out).state ∧
    (∀ q, (dashboard st q).1.db = st.db) := by
  have hdb := create_invoice_db_eq_of_wf st n e d a t u out hwf
  have hnext : (create_invoice st n e d a t u out).state.nextId =
      st.nextId + 1 := by cases out <;> rfl
  refine ⟨?_, ?_, ?_, fun q => rfl⟩
  · intro inv hm
    rcases List.mem_append.mp hm with h | h
    · exact hinv inv h
    · have : inv = mkNewInvoice st n e d a t := by simpa using h
      subst this
      simp [hasArtifact, mkNewInvoice]
  · intro inv hm
    rw [hdb] at hm
    rcases List.mem_append.mp hm with h | h
    · exact hinv inv h
    · have : inv = finalRecord st n e d a t u out := by simpa using h
      subst this
      cases out <;>
        simp [finalRecord, mkNewInvoice, hasArtifact,
          pdf_filename_not_isEmpty]
  · intro inv hm
    rw [hdb] at hm
    rw [hnext]
    rcases List.mem_append.mp hm with h | h
    · exact Nat.lt_succ_of_lt (hwf inv h)
    · have : inv = finalRecord st n e d a t u out := by simpa using h
      subst this
      have hid : (finalRecord st n e d a t u out).id = st.nextId := by
        cases out <;> simp [finalRecord, mkNewInvoice]
      rw [hid]
      exact Nat.lt_succ_self _

/-- Witness for C2 at a concrete state. -/
theorem create_preserves_artifact_invariant_witness :
    artifactInvariant
      (create_invoice stEmpty "Acme" "acme@example.com" "Consulting"
        1 0 "u0" .ok).state.db :=
  (create_preserves_artifact_invariant stEmpty "Acme" "acme@example.com"
    "Consulting" 1 0 "u0" .ok
    (by intro inv hm; simp [stEmpty] at hm)
    (by intro inv hm; simp [stEmpty] at hm)).2.1

/-- Claim C3: on a successful creation from any well-formed state, the
persisted record ends in status Sent carrying the non-empty artifact
reference, and downloading that id serves exactly the stored conversion
output as application/pdf under the derived name Invoice_<id>.pdf; the
served bytes begin with the PDF magic header. -/
theorem successful_creation_roundtrip (st : AppState) (n e d : String)
    (a : Rat) (t : Nat) (u : String) (hwf : wfIds st) :
    ((create_invoice st n e d a t u .ok).state.db.getLast?).map
      Invoice.status = some Status.Sent ∧
    ((create_invoice st n e d a t u .ok).state.db.getLast?).map
      Invoice.filename = some (some (pdf_filename u)) ∧
    hasArtifact (finalRecord st n e d a t u .ok) = true ∧
    download_invoice (create_invoice st n e d a t u .ok).state
        st.nextId =
      .ok { content := pisaConvert (renderTemplate
              (mkNewInvoice st n e d a t)),
            media_type := "application/pdf",
            filename := "Invoice_" ++ toString st.nextId ++ ".pdf" } ∧
    (pisaConvert (renderTemplate (mkNewInvoice st n e d a t))).take 4 =
      pdfMagic := by
  have hdb := create_invoice_db_eq_of_wf st n e d a t u .ok hwf
  have hstore : (create_invoice st n e d a t u .ok).state.store =
      (pdf_filename u,
        pisaConvert (renderTemplate (mkNewInvoice st n e d a t))) ::
        st.store := rfl
  refine ⟨?_, ?_, ?_, ?_, ?_⟩
  · rw [create_invoice_getLast?]; simp [finalRecord]
  · rw [create_invoice_getLast?]; simp [finalRecord]
  · simp [finalRecord, hasArtifact, pdf_filename_not_isEmpty]
  · have hfind : (create_invoice st n e d a t u .ok).state.db.find?
        (fun inv => inv.id == st.nextId) =
        some (finalRecord st n e d a t u .ok) := by
      rw [hdb, List.find?_append]
      have h1 : st.db.find? (fun inv => inv.id == st.nextId) = none := by
        rw [List.find?_eq_none]
        intro x hx
        simpa using Nat.ne_of_lt (hwf x hx)
      rw [h1, Option.none_or]
      simp [finalRecord, mkNewInvoice]
    have hfn : (finalRecord st n e d a t u .ok).filename =
        some (pdf_filename u) := by simp [finalRecord]
    simp only [download_invoice, hfind, hfn, pdf_filename_not_isEmpty,
      Bool.false_eq_true, if_false, hstore, List.lookup]
    simp
  · have h4 : pdfMagic.length = 4 := rfl
    simp only [pisaConvert]
    rw [← h4, List.take_left]

/-- Witness for C3 at a concrete state and inputs (client "Acme",
amount 125.50). -/
theorem successful_creation_roundtrip_witness :
    download_invoice (create_invoice stEmpty "Acme" "acme@example.com"
        "Consulting" (251/2 : Rat) 0 "u0" .ok).state stEmpty.nextId =
      .ok { content := pisaConvert (renderTemplate
              (mkNewInvoice stEmpty "Acme" "acme@example.com"
                "Consulting" (251/2 : Rat) 0)),
            media_type := "application/pdf",
            filename := "Invoice_" ++ toString stEmpty.nextId ++
              ".pdf" } ∧
    (pisaConvert (renderTemplate (mkNewInvoice stEmpty "Acme"
        "acme@example.com" "Consulting" (251/2 : Rat) 0))).take 4 =
      pdfMagic := by
  have h := successful_creation_roundtrip stEmpty "Acme"
    "acme@example.com" "Consulting" (251/2 : Rat) 0 "u0"
    (by intro inv hm; simp [stEmpty] at hm)
  exact ⟨h.2.2.2.1, h.2.2.2.2⟩

/-- Claim C4, amended: any result the ordered query admits is a
reordering of the whole table that is sorted by descending creation
timestamp, so a row with a strictly later timestamp always appears
earlier; the relative order of rows with equal timestamps is left
unspecified by the query (no secondary sort key at line 110), so the
claimed insertion-order tie-break is not guaranteed. -/
theorem list_sorted_desc_by_created (st : AppState)
    (outRows : List Invoice) (h : listRecentSpec st.db outRows) :
    (dashboard st outRows).2.invoices = outRows ∧
    (∀ x : Invoice, x ∈ outRows ↔ x ∈ st.db) ∧
    (∀ i j : Fin outRows.length, i ≤ j →
      (outRows.get j).created_at ≤ (outRows.get i).created_at) ∧
    (∀ i j : Fin outRows.length,
      (outRows.get i).created_at < (outRows.get j).created_at →
        j < i) := by
  obtain ⟨hp, hs⟩ := h
  have hmono : ∀ i j : Fin outRows.length, i ≤ j →
      (outRows.get j).created_at ≤ (outRows.get i).created_at := by
    intro i j hij
    rcases lt_or_eq_of_le hij with hlt | heq
    · exact List.pairwise_iff_get.mp hs i j hlt
    · rw [heq]
  refine ⟨rfl, fun x => hp.mem_iff.symm, hmono, ?_⟩
  intro i j hlt
  by_contra hnot
  have hle : i ≤ j := le_of_not_lt hnot
  exact absurd hlt (not_lt.mpr (hmono i j hle))

/-- Witness for C4 at a concrete one-row state. -/
theorem list_sorted_desc_by_created_witness :
    (dashboard stOne [invA]).2.invoices = [invA] ∧
    (∀ x : Invoice, x ∈ [invA] ↔ x ∈ stOne.db) ∧
    (∀ i j : Fin ([invA] : List Invoice).length, i ≤ j →
      (([invA] : List Invoice).get j).created_at ≤
        (([invA] : List Invoice).get i).created_at) ∧
    (∀ i j : Fin ([invA] : List Invoice).length,
      (([invA] : List Invoice).get i).created_at <
        (([invA] : List Invoice).get j).created_at → j < i) :=
  list_sorted_desc_by_created stOne [invA]
    ⟨List.Perm.refl _, by simp⟩

/-- Claim C4, counterexample: for two distinct rows inserted in the
order invA then invB with equal creation timestamps, the query contract
admits both output orders, so neither an insertion-order tie-break nor
the later row appearing first is guaranteed by the code. -/
theorem list_tie_order_unspecified :
    listRecentSpec [invA, invB] [invA, invB] ∧
    listRecentSpec [invA, invB] [invB, invA] ∧
    invA ≠ invB ∧
    invA.created_at = invB.created_at ∧
    ([invA, invB] : List Invoice) ≠ [invB, invA] := by
  refine ⟨⟨List.Perm.refl _, by simp [invA, invB]⟩,
    ⟨List.Perm.swap invB invA [], by simp [invA, invB]⟩,
    by simp [invA, invB], rfl, by simp [invA, invB]⟩

/-- Claim C7: the download operation signals 404 "Invoice not found"
when the id matches no row or the matched row has a NULL or empty
filename, and the distinct 404 "PDF file missing" when the row and its
filename exist but the store has no bytes under that name; the two
error kinds are distinct values with distinct detail strings, both
carried as status 404. -/
theorem download_not_found_taxonomy (st : AppState)
    (invoice_id : Nat) :
    (st.db.find? (fun inv => inv.id == invoice_id) = none →
      download_invoice st invoice_id =
        .error DownloadError.invoiceNotFound) ∧
    (∀ invoice, st.db.find? (fun inv => inv.id == invoice_id) =
        some invoice → invoice.filename = none →
      download_invoice st invoice_id =
        .error DownloadError.invoiceNotFound) ∧
    (∀ invoice f, st.db.find? (fun inv => inv.id == invoice_id) =
        some invoice → invoice.filename = some f → f.isEmpty = true →
      download_invoice st invoice_id =
        .error DownloadError.invoiceNotFound) ∧
    (∀ invoice f, st.db.find? (fun inv => inv.id == invoice_id) =
        some invoice → invoice.filename = some f → f.isEmpty = false →
        st.store.lookup f = none →
      download_invoice st invoice_id =
        .error DownloadError.pdfFileMissing) ∧
    (DownloadError.invoiceNotFound ≠ DownloadError.pdfFileMissing ∧
     DownloadError.invoiceNotFound.detail ≠
       DownloadError.pdfFileMissing.detail ∧
     DownloadError.invoiceNotFound.status_code = 404 ∧
     DownloadError.pdfFileMissing.status_code = 404) := by
  refine ⟨?_, ?_, ?_, ?_, by decide, by decide, rfl, rfl⟩
  · intro h
    simp [download_invoice, h]
  · intro invoice h1 h2
    simp [download_invoice, h1, h2]
  · intro invoice f h1 h2 h3
    simp [download_invoice, h1, h2, h3]
  · intro invoice f h1 h2 h3 h4
    simp [download_invoice, h1, h2, h3, h4]

/-- Witness for C7: a lookup miss on the empty database, and a missing
stored file behind an existing Sent row. -/
theorem download_not_found_taxonomy_witness :
    download_invoice stEmpty 7 = .error DownloadError.invoiceNotFound ∧
    download_invoice stMissingFile 1 =
      .error DownloadError.pdfFileMissing := by
  refine ⟨(download_not_found_taxonomy stEmpty 7).1 rfl, ?_⟩
  exact (download_not_found_taxonomy stMissingFile 1).2.2.2.1
    invSentMissing "g.pdf" rfl rfl rfl rfl

end InvoiceApp
